import Mathlib

/-!
Shallow embedding of the order pricing and checkout-session reconciliation core of
the FoodieDrops marketplace (React/TypeScript client, Supabase edge functions).

Monetary values (JS `number`) are modelled as rationals; timestamps as naturals.
The embedded functions mirror, case for case, the TypeScript sources:
  * `src/types.ts`                     — data model,
  * `src/views/DropDetail.tsx`         — client Pricing Engine, modifier selection
                                          and validation, purchase-click flow,
  * `src/services/api.ts` (part_005)   — `savePurchase` client entrypoint,
  * `supabase/functions/create-checkout-session` (part_005 tail) — session gateway,
  * `supabase/functions/stripe-webhook` (part_006) — reconciliation listener.
The `purchase_drop_item` stored procedure lives in `supabase_schema.sql`, which is
not part of the available sources; it is modelled from the specification and
marked as such.
-/

namespace FoodieDrops

/-! ### Data model (src/types.ts) -/

/-- Approval state of a drop (`DropApprovalStatus` in src/types.ts). -/
inductive DropApprovalStatus
  | pending
  | approved
  | rejected
deriving DecidableEq

/-- Payment status of an order (`Purchase.payment_status` in src/types.ts). -/
inductive PaymentStatus
  | pending
  | paid
  | failed
  | refunded
deriving DecidableEq

/-- A priced add-on option (`ModifierOption` in src/types.ts). -/
structure ModifierOption where
  id : String
  name : String
  additionalPrice : ℚ
deriving DecidableEq

/-- A named set of priced options with selection bounds (`ModifierGroup`). -/
structure ModifierGroup where
  id : String
  name : String
  minSelect : Nat
  maxSelect : Nat
  options : List ModifierOption
deriving DecidableEq

/-- A menu item with base price and modifier groups (`MenuItem`). -/
structure MenuItem where
  id : String
  name : String
  basePrice : ℚ
  modifierGroups : List ModifierGroup
deriving DecidableEq

/-- One frozen modifier-group choice inside an order (`SelectedItem.selectedModifiers` entry). -/
structure SelectedModifierGroup where
  groupId : String
  groupName : String
  options : List ModifierOption
deriving DecidableEq

/-- An itemized selection frozen at order time (`SelectedItem`). -/
structure SelectedItem where
  itemId : String
  name : String
  basePrice : ℚ
  selectedModifiers : List SelectedModifierGroup
deriving DecidableEq

/-- The fields of a `Drop` row used by the pricing/reservation core. -/
structure Drop where
  id : String
  name : String
  image : String
  price : ℚ
  tax_rate : Option ℚ
  total_quantity : Int
  quantity_remaining : Int
  approval_status : DropApprovalStatus
  menu_items : List MenuItem
  delivery_fee : ℚ
deriving DecidableEq

/-! ### Client-side modifier selections (DropDetail.tsx)

`DropDetail` keeps selections as `Record<string, Record<string, ModifierOption[]>>`
(item id → group id → selected options); we embed the record as an association
list, `lookup` returning the record access with its `|| {}` / `|| []` defaults. -/

/-- Selections state of the drop-detail view: item id → (group id → options). -/
abbrev Selections : Type := List (String × List (String × List ModifierOption))

/-- Record access `selections[itemId] || {}`. -/
def lookupItem (sel : Selections) (itemId : String) : List (String × List ModifierOption) :=
  ((sel.find? (fun p => p.1 == itemId)).map Prod.snd).getD []

/-- Record access `selections[itemId]?.[groupId] || []`. -/
def lookupGroup (sel : Selections) (itemId groupId : String) : List ModifierOption :=
  (((lookupItem sel itemId).find? (fun p => p.1 == groupId)).map Prod.snd).getD []

/-- Replace (or create) the options list of one group of one item in the
selections record, mirroring the object-spread update in `toggleOption`. -/
def setGroup (sel : Selections) (itemId groupId : String)
    (opts : List ModifierOption) : Selections :=
  let itemSels := lookupItem sel itemId
  let itemSels' :=
    if (itemSels.find? (fun p => p.1 == groupId)).isSome then
      itemSels.map (fun p => if p.1 == groupId then (p.1, opts) else p)
    else
      itemSels ++ [(groupId, opts)]
  if (sel.find? (fun p => p.1 == itemId)).isSome then
    sel.map (fun p => if p.1 == itemId then (p.1, itemSels') else p)
  else
    sel ++ [(itemId, itemSels')]

/-- Core of `toggleOption` (DropDetail.tsx lines 45–71): the new option list of
the clicked group, given its current list and the group's `maxSelect`. -/
def toggleGroup (groupSels : List ModifierOption) (option : ModifierOption)
    (maxSelect : Nat) : List ModifierOption :=
  if (groupSels.find? (fun o => o.id == option.id)).isSome then
    groupSels.filter (fun o => o.id != option.id)
  else if maxSelect == 1 then
    [option]
  else if groupSels.length < maxSelect then
    groupSels ++ [option]
  else
    groupSels

/-- `toggleOption` (DropDetail.tsx): updates the selections record for a click
on `option` in group `groupId` of item `itemId`. -/
def toggleOption (sel : Selections) (itemId groupId : String)
    (option : ModifierOption) (maxSelect : Nat) : Selections :=
  setGroup sel itemId groupId (toggleGroup (lookupGroup sel itemId groupId) option maxSelect)

/-! ### Client Pricing Engine (DropDetail.tsx lines 73–92) -/

/-- The inner accumulation of `unitPrice`: starting from the item's base price,
add the surcharge of every selected option in every group present in the
selection record for that item (`Object.values(itemSels).forEach`). -/
def itemUnitPrice (sel : Selections) (item : MenuItem) : ℚ :=
  (lookupItem sel item.id).foldl
    (fun acc p => p.2.foldl (fun a o => a + o.additionalPrice) acc)
    item.basePrice

/-- `unitPrice` memo (DropDetail.tsx lines 73–85): total of per-item prices,
falling back to the drop's flat price when the drop has no menu items. -/
def unitPrice (drop : Drop) (sel : Selections) : ℚ :=
  let total := drop.menu_items.foldl (fun acc item => acc + itemUnitPrice sel item) 0
  if drop.menu_items.length == 0 then drop.price else total

/-- The price breakdown the drop-detail view displays. -/
structure PriceBreakdown where
  subtotal : ℚ
  deliveryFee : ℚ
  bookingFee : ℚ
  taxAmount : ℚ
  orderTotal : ℚ
deriving DecidableEq

/-- The client pricing computation (DropDetail.tsx lines 87–92):
`calculatedSubtotal`, `deliveryFee`, `bookingFee`, `taxAmount`, `orderTotal`. -/
def clientPricing (drop : Drop) (sel : Selections) (qty : Nat)
    (deliveryRequested : Bool) (bookingFeePerPackage : ℚ) : PriceBreakdown :=
  let subtotal := unitPrice drop sel * qty
  let deliveryFee := if deliveryRequested then drop.delivery_fee else 0
  let bookingFee := bookingFeePerPackage * qty
  let taxRate := drop.tax_rate.getD 0
  let taxAmount := (subtotal + deliveryFee + bookingFee) * taxRate
  { subtotal := subtotal
    deliveryFee := deliveryFee
    bookingFee := bookingFee
    taxAmount := taxAmount
    orderTotal := subtotal + deliveryFee + bookingFee + taxAmount }

/-! ### Modifier Selection Validator and purchase-click flow (DropDetail.tsx lines 94–130) -/

/-- The first (item, group) pair violating its `minSelect` bound, in the order
`validateSelections` scans them (items outer, groups inner). -/
def firstViolation (drop : Drop) (sel : Selections) : Option (MenuItem × ModifierGroup) :=
  drop.menu_items.findSome? (fun item =>
    (item.modifierGroups.find? (fun g =>
      decide (0 < g.minSelect) &&
      decide ((lookupGroup sel item.id g.id).length < g.minSelect))).map
      (fun g => (item, g)))

/-- The alert text `validateSelections` shows for a violated group. -/
def incompleteSelectionMessage (item : MenuItem) (g : ModifierGroup) : String :=
  "Please select at least " ++ toString g.minSelect ++ " option(s) for \"" ++
    g.name ++ "\" in \"" ++ item.name ++ "\"."

/-- `validateSelections` (DropDetail.tsx lines 94–105): true iff no modifier
group of any menu item has fewer selections than its `minSelect`. -/
def validateSelections (drop : Drop) (sel : Selections) : Bool :=
  (firstViolation drop sel).isNone

/-- Outcome of a click on the "Reserve & Pay" button before any reservation. -/
inductive ClickResult
  | incompleteSelection (message : String)
  | quantityTooLow (message : String)
  | insufficientStock (message : String)
  | proceed
deriving DecidableEq

/-- The `setQtyError` text for an over-stock quantity. -/
def stockMessage (remaining : Int) : String :=
  "Only " ++ toString remaining ++ " left in stock."

/-- `handlePurchaseClick` (DropDetail.tsx lines 107–130): validate selections,
then the quantity bounds; only `proceed` goes on to checkout/reservation. -/
def handlePurchaseClick (drop : Drop) (sel : Selections) (qty : Nat) : ClickResult :=
  match firstViolation drop sel with
  | some (item, g) => .incompleteSelection (incompleteSelectionMessage item g)
  | none =>
    if qty < 1 then .quantityTooLow "Quantity must be at least 1."
    else if drop.quantity_remaining < (qty : Int) then
      .insufficientStock (stockMessage drop.quantity_remaining)
    else .proceed

/-- `handleConfirmCheckout` (DropDetail.tsx lines 132–145): the frozen
`finalSelections` payload built from the menu and the current selections. -/
def finalSelections (drop : Drop) (sel : Selections) : List SelectedItem :=
  drop.menu_items.map (fun item =>
    { itemId := item.id
      name := item.name
      basePrice := item.basePrice
      selectedModifiers := item.modifierGroups.map (fun g =>
        { groupId := g.id
          groupName := g.name
          options := lookupGroup sel item.id g.id }) })

/-! ### Reservation entrypoint (src/services/api.ts, `savePurchase`) and the
`purchase_drop_item` RPC -/

/-- Failure modes of the reservation RPC (spec §4.3). -/
inductive RpcError
  | dropNotApproved
  | dropNotLive
  | insufficientInventory
deriving DecidableEq

/-- Modelled from the spec: the `purchase_drop_item` stored procedure
(supabase_schema.sql, not among the available sources) — atomically verify the
drop is `approved`, within its live window, and `remaining ≥ quantity`; then
decrement `remaining` and insert a pending order, as a single transactional
unit (spec §4.3, steps 1–3). Each call is one atomic transaction, so any set
of concurrent attempts is equivalent to some serial order of these calls. -/
def purchase_drop_item (drop : Drop) (live : Bool) (q : Int) : Except RpcError Drop :=
  if drop.approval_status ≠ .approved then .error .dropNotApproved
  else if live = false then .error .dropNotLive
  else if drop.quantity_remaining < q then .error .insufficientInventory
  else .ok { drop with quantity_remaining := drop.quantity_remaining - q }

/-- Errors surfaced by `savePurchase`. -/
inductive SaveError
  | notApproved (message : String)
  | rpcFailed (e : RpcError)
deriving DecidableEq

/-- The accumulation of `modifiersCost` in `savePurchase` (api.ts lines 265–273):
sum of `additionalPrice` over every option of every selected modifier group of
every selected item. -/
def modifiersCost (selectedItems : List SelectedItem) : ℚ :=
  selectedItems.foldl (fun acc item =>
    item.selectedModifiers.foldl (fun a g =>
      g.options.foldl (fun b o => b + o.additionalPrice) a) acc) 0

/-- The total `savePurchase` computes and submits as `p_total_paid`
(api.ts lines 260–273): flat price × quantity, plus the delivery fee when
requested, plus the modifier cost × quantity. -/
def savePurchaseTotal (drop : Drop) (quantity : Nat) (deliveryRequested : Bool)
    (selectedItems : List SelectedItem) : ℚ :=
  let total := drop.price * quantity
  let total := if deliveryRequested then total + drop.delivery_fee else total
  total + modifiersCost selectedItems * quantity

/-- `savePurchase` (api.ts lines 256–308): gate on approval, compute the total,
call the atomic RPC; on success the purchase row carries the computed total and
the drop's remaining quantity has been decremented. -/
def savePurchase (drop : Drop) (live : Bool) (quantity : Nat)
    (deliveryRequested : Bool) (selectedItems : List SelectedItem) :
    Except SaveError (ℚ × Drop) :=
  if drop.approval_status ≠ .approved then
    .error (.notApproved "This package is not approved for booking yet.")
  else
    let total := savePurchaseTotal drop quantity deliveryRequested selectedItems
    match purchase_drop_item drop live (quantity : Int) with
    | .error e => .error (.rpcFailed e)
    | .ok d => .ok (total, d)

/-- Result of one full purchase attempt from the drop-detail view. -/
inductive AttemptResult
  | rejected (r : ClickResult)
  | saveFailed (e : SaveError)
  | reserved (total : ℚ)
deriving DecidableEq

/-- One end-to-end purchase attempt: the click-time gate, then (only on
`proceed`) `savePurchase` with the frozen `finalSelections`. Returns the
outcome together with the drop state after the attempt. -/
def purchaseAttempt (drop : Drop) (live : Bool) (sel : Selections) (qty : Nat)
    (deliveryRequested : Bool) : AttemptResult × Drop :=
  match handlePurchaseClick drop sel qty with
  | .proceed =>
    match savePurchase drop live qty deliveryRequested (finalSelections drop sel) with
    | .error e => (.saveFailed e, drop)
    | .ok (total, d) => (.reserved total, d)
  | r => (.rejected r, drop)

/-- Fold of many atomic reservation attempts against one drop, recording the
quantity of each successful reservation (each attempt is one serialized
transaction of the RPC; failed attempts leave the drop unchanged). -/
def runReservations (drop : Drop) (live : Bool) : List Int → Drop × List Int
  | [] => (drop, [])
  | q :: qs =>
    match purchase_drop_item drop live q with
    | .ok d => ((runReservations d live qs).1, q :: (runReservations d live qs).2)
    | .error _ => runReservations drop live qs

/-! ### External payment provider model and the Checkout Session Gateway
(supabase/functions/create-checkout-session) -/

/-- Status of an external checkout session (`'open' | 'complete' | 'expired'`). -/
inductive SessionStatus
  | opened
  | completed
  | expired
deriving DecidableEq

/-- An external payment-provider checkout session. -/
structure StripeSession where
  id : String
  url : Option String
  status : SessionStatus
  amount : Int
  purchaseIdMeta : Option String
deriving DecidableEq

/-- The external provider's state: its sessions and a fresh-id counter. -/
structure StripeState where
  sessions : List StripeSession
  nextId : Nat
deriving DecidableEq

/-- `stripe.checkout.sessions.retrieve` — `none` models the thrown error the
gateway catches and ignores. -/
def retrieveSession (st : StripeState) (sid : String) : Option StripeSession :=
  st.sessions.find? (fun s => s.id == sid)

/-- Fresh session ids issued by the provider. -/
def mkSessionId (n : Nat) : String := "cs_test_" ++ toString n

/-- `stripe.checkout.sessions.create`: a newly created checkout session is
`opened` and carries a redirect URL, tagged with the purchase id as metadata. -/
def createSession (st : StripeState) (amount : Int) (purchaseId : String) :
    StripeSession × StripeState :=
  let sid := mkSessionId st.nextId
  let s : StripeSession :=
    { id := sid
      url := some ("https://checkout.stripe.test/" ++ sid)
      status := .opened
      amount := amount
      purchaseIdMeta := some purchaseId }
  (s, { sessions := st.sessions ++ [s], nextId := st.nextId + 1 })

/-- The persisted fields of a purchase row the payment flow reads and writes. -/
structure PurchaseRow where
  id : String
  payment_status : PaymentStatus
  stripe_checkout_session_id : Option String
  stripe_payment_intent_id : Option String
  paid_at : Option Nat
  total_paid : ℚ
  quantity : Nat
  customer_email : String
  drop_id : String
  drop_name : String
deriving DecidableEq

/-- Response of the checkout-session gateway. -/
inductive GatewayResult
  | err (httpStatus : Nat) (message : String)
  | ok (url : String) (sessionId : String) (reused : Bool)
deriving DecidableEq

/-- The create-checkout-session edge function after it has fetched the purchase
row (part_005 lines 542–614): reject paid/refunded purchases, reuse a still-open
referenced session unchanged, otherwise create a new session for the frozen
total (in minor units, `Math.round(total * 100)`) and persist its id on the row
with status `pending`. Returns the response, the purchase row as persisted
after the call, and the provider state. -/
def createCheckoutSessionRow (purchase : PurchaseRow) (stripe : StripeState) :
    GatewayResult × PurchaseRow × StripeState :=
  if purchase.payment_status = .paid then
    (.err 400 "Purchase is already paid.", purchase, stripe)
  else if purchase.payment_status = .refunded then
    (.err 400 "Purchase has been refunded and cannot be repaid.", purchase, stripe)
  else
    let reuse : Option (String × String) :=
      match purchase.stripe_checkout_session_id with
      | some sid =>
        match retrieveSession stripe sid with
        | some existing =>
          if existing.status = .opened then existing.url.map (fun u => (u, existing.id))
          else none
        | none => none
      | none => none
    match reuse with
    | some (u, sid) => (.ok u sid true, purchase, stripe)
    | none =>
      let amountInCents := round (purchase.total_paid * 100)
      if amountInCents ≤ 0 then
        (.err 400 "Invalid purchase amount.", purchase, stripe)
      else
        let (session, stripe') := createSession stripe amountInCents purchase.id
        let purchase' := { purchase with
          stripe_checkout_session_id := some session.id
          payment_status := .pending }
        match session.url with
        | none => (.err 500 "Stripe did not return a checkout URL.", purchase', stripe')
        | some u => (.ok u session.id false, purchase', stripe')

/-! ### Payment Reconciliation Listener (supabase/functions/stripe-webhook) -/

/-- The provider events the webhook distinguishes. -/
inductive StripeEvent
  | checkoutSessionCompleted (purchase_id : Option String) (session_id : String)
      (payment_intent : Option String)
  | checkoutSessionAsyncPaymentFailed (purchase_id : Option String) (session_id : String)
  | checkoutSessionExpired (purchase_id : Option String) (session_id : String)
  | chargeRefunded (payment_intent : Option String)
  | otherEvent
deriving DecidableEq

/-- A supabase `.update(...).eq/:neq(...)` over the purchases table: apply `f`
to every row matching `hit`. -/
def updateWhere (db : List PurchaseRow) (hit : PurchaseRow → Bool)
    (f : PurchaseRow → PurchaseRow) : List PurchaseRow :=
  db.map (fun r => if hit r then f r else r)

/-- The webhook's event dispatch (part_006 lines 50–95), at wall-clock `now`:
`completed` marks the matching row paid (unconditionally) with session id,
payment-intent id and `paid_at := now`; `async_payment_failed`/`expired` mark
the row failed only if it is not already paid; `charge.refunded` marks rows
matching the payment-intent id refunded; unknown events are ignored. -/
def handleEvent (now : Nat) (ev : StripeEvent) (db : List PurchaseRow) :
    List PurchaseRow :=
  match ev with
  | .checkoutSessionCompleted (some pid) sid intent =>
    updateWhere db (fun r => r.id == pid) (fun r =>
      { r with
        payment_status := .paid
        stripe_checkout_session_id := some sid
        stripe_payment_intent_id := intent
        paid_at := some now })
  | .checkoutSessionAsyncPaymentFailed (some pid) sid
  | .checkoutSessionExpired (some pid) sid =>
    updateWhere db (fun r => r.id == pid && !(r.payment_status == .paid)) (fun r =>
      { r with
        payment_status := .failed
        stripe_checkout_session_id := some sid })
  | .chargeRefunded (some intentId) =>
    updateWhere db (fun r => r.stripe_payment_intent_id == some intentId) (fun r =>
      { r with payment_status := .refunded })
  | _ => db

/-- An inbound webhook request: HTTP method, presence and validity of the
`stripe-signature` header over the raw body, and the event the body encodes. -/
structure WebhookRequest where
  methodPost : Bool
  hasSignature : Bool
  signatureValid : Bool
  event : StripeEvent
deriving DecidableEq

/-- The stripe-webhook edge function (part_006): method check, then the
signature checks (`constructEventAsync` fails on an invalid signature), and
only then the event dispatch. Returns the HTTP status and the purchases table
after the request. -/
def stripeWebhook (now : Nat) (req : WebhookRequest) (db : List PurchaseRow) :
    Nat × List PurchaseRow :=
  if req.methodPost = false then (405, db)
  else if req.hasSignature = false then (400, db)
  else if req.signatureValid = false then (400, db)
  else (200, handleEvent now req.event db)

/-! ### Specification-side comparison definitions -/

/-- Sum of the selected option surcharges recorded for `item` in the selections
record, as the specification words it (spec §4.1). -/
def selectedSurcharges (sel : Selections) (item : MenuItem) : ℚ :=
  ((lookupItem sel item.id).map (fun p => (p.2.map ModifierOption.additionalPrice).sum)).sum

/-- The payment-status transition relation the specification allows
(spec §3 Order invariant): `pending → paid`, `pending → failed`,
`paid → refunded`, plus staying put; nothing backward, nothing skipping. -/
def specAllowedTransition (s t : PaymentStatus) : Prop :=
  s = t ∨ (s = .pending ∧ t = .paid) ∨ (s = .pending ∧ t = .failed) ∨
    (s = .paid ∧ t = .refunded)

instance (s t : PaymentStatus) : Decidable (specAllowedTransition s t) := by
  unfold specAllowedTransition
  infer_instance

/-- A webhook request carrying a valid provider signature over `ev`. -/
def validRequest (ev : StripeEvent) : WebhookRequest :=
  { methodPost := true, hasSignature := true, signatureValid := true, event := ev }

/-- The purchases table after two deliveries of the same event, at times `t1`
then `t2` (at-least-once delivery with a duplicate). -/
def deliverTwice (t1 t2 : Nat) (ev : StripeEvent) (db : List PurchaseRow) :
    List PurchaseRow :=
  (stripeWebhook t2 (validRequest ev) (stripeWebhook t1 (validRequest ev) db).2).2

/-! ### Concrete instances for witnesses and counterexamples -/

/-- An approved drop with one unit left, flat price 10, no menu items, no tax,
no delivery fee (the spec §8 example scenario). -/
def exDrop : Drop :=
  { id := "d1", name := "Birria Box", image := "img", price := 10, tax_rate := none,
    total_quantity := 1, quantity_remaining := 1, approval_status := .approved,
    menu_items := [], delivery_fee := 0 }

/-- Example modifier options. -/
def exOpt1 : ModifierOption := { id := "o1", name := "Consomé", additionalPrice := 2 }

/-- A second example option. -/
def exOpt2 : ModifierOption := { id := "o2", name := "Extra Tortillas", additionalPrice := 3 }

/-- A required modifier group (`minSelect = 2`, spec §8 modifier-gate scenario). -/
def exGroupReq : ModifierGroup :=
  { id := "g1", name := "Salsas", minSelect := 2, maxSelect := 3, options := [exOpt1, exOpt2] }

/-- A menu item carrying the required group. -/
def exItemReq : MenuItem :=
  { id := "i1", name := "Taco Plate", basePrice := 5, modifierGroups := [exGroupReq] }

/-- A drop with fifty units and the required modifier group. -/
def exDropReq : Drop :=
  { exDrop with quantity_remaining := 50, total_quantity := 50, menu_items := [exItemReq] }

/-- Selections with only one option picked in the required group. -/
def exSelOne : Selections := [("i1", [("g1", [exOpt1])])]

/-- A single-select group (`maxSelect = 1`). -/
def exGroupMax : ModifierGroup :=
  { id := "g1", name := "Salsas", minSelect := 0, maxSelect := 1, options := [exOpt1, exOpt2] }

/-- A drop whose menu item carries the single-select group. -/
def exDropMax : Drop :=
  { exDrop with menu_items := [{ exItemReq with modifierGroups := [exGroupMax] }] }

/-- Selections with two options picked in the single-select group. -/
def exSelOver : Selections := [("i1", [("g1", [exOpt1, exOpt2])])]

/-- A pending purchase row with no session reference. -/
def exRow : PurchaseRow :=
  { id := "p1", payment_status := .pending, stripe_checkout_session_id := none,
    stripe_payment_intent_id := none, paid_at := none, total_paid := 10,
    quantity := 1, customer_email := "ana@example.com", drop_id := "d1",
    drop_name := "Birria Box" }

/-- The same row after a failed payment. -/
def exRowFailed : PurchaseRow := { exRow with payment_status := .failed }

/-- The same row once paid. -/
def exRowPaid : PurchaseRow := { exRow with payment_status := .paid }

/-- The provider state with no sessions. -/
def exStripeEmpty : StripeState := { sessions := [], nextId := 0 }

/-- An open provider session referenced by `exRowWithSession`. -/
def exSessionOpen : StripeSession :=
  { id := "cs_1", url := some "https://checkout.stripe.test/cs_1", status := .opened,
    amount := 1000, purchaseIdMeta := some "p1" }

/-- The provider state holding just that open session. -/
def exStripeOpen : StripeState := { sessions := [exSessionOpen], nextId := 1 }

/-- A pending purchase row referencing the open session. -/
def exRowWithSession : PurchaseRow := { exRow with stripe_checkout_session_id := some "cs_1" }

/-- A one-row purchases table. -/
def exDb : List PurchaseRow := [exRow]

/-- A `checkout.session.completed` event for that row. -/
def exEvCompleted : StripeEvent :=
  .checkoutSessionCompleted (some "p1") "cs_1" (some "pi_1")

/-- A request whose signature verification fails. -/
def exReqBadSig : WebhookRequest :=
  { methodPost := true, hasSignature := true, signatureValid := false, event := exEvCompleted }

/-! ## Theorems -/

/-! ### Helper lemmas -/

/-- Folding `+ f x` over a list adds the sum of the mapped list. -/
theorem foldl_add_map {α : Type} (f : α → ℚ) (l : List α) (a : ℚ) :
    l.foldl (fun b x => b + f x) a = a + (l.map f).sum := by
  induction l generalizing a with
  | nil => simp
  | cons hd tl ih => simp [ih]; ring

/-- The inner option fold of the pricing engine is the surcharge sum. -/
theorem foldl_options (l : List ModifierOption) (a : ℚ) :
    l.foldl (fun b o => b + o.additionalPrice) a
      = a + (l.map ModifierOption.additionalPrice).sum :=
  foldl_add_map ModifierOption.additionalPrice l a

/-- The group fold of the pricing engine sums the per-group surcharge sums. -/
theorem foldl_groups (L : List (String × List ModifierOption)) (a : ℚ) :
    L.foldl (fun acc p => p.2.foldl (fun b o => b + o.additionalPrice) acc) a
      = a + (L.map (fun p => (p.2.map ModifierOption.additionalPrice).sum)).sum := by
  induction L generalizing a with
  | nil => simp
  | cons hd tl ih =>
    simp only [List.foldl_cons, List.map_cons, List.sum_cons]
    rw [foldl_options, ih]
    ring

/-- The per-item unit price is the base price plus the selected surcharges. -/
theorem itemUnitPrice_eq (sel : Selections) (item : MenuItem) :
    itemUnitPrice sel item = item.basePrice + selectedSurcharges sel item := by
  unfold itemUnitPrice selectedSurcharges
  exact foldl_groups _ _

/-- The `unitPrice` memo equals the specification's formula. -/
theorem unitPrice_eq (drop : Drop) (sel : Selections) :
    unitPrice drop sel
      = (if drop.menu_items = [] then drop.price
         else (drop.menu_items.map
            (fun item => item.basePrice + selectedSurcharges sel item)).sum) := by
  unfold unitPrice
  cases h : drop.menu_items with
  | nil => simp
  | cons hd tl =>
    rw [if_neg (by simp [h])]
    rw [if_neg (by simp [h])]
    rw [foldl_add_map]
    have heq : itemUnitPrice sel = fun item => item.basePrice + selectedSurcharges sel item :=
      funext (itemUnitPrice_eq sel)
    rw [zero_add, heq]

/-- Unfolding of a successful atomic reservation: the new remaining quantity is
the old minus the requested one, the request fit in stock, and the approval
state is untouched. -/
theorem purchase_drop_item_ok {drop : Drop} {live : Bool} {q : Int} {d : Drop}
    (h : purchase_drop_item drop live q = .ok d) :
    d.quantity_remaining = drop.quantity_remaining - q ∧
    q ≤ drop.quantity_remaining ∧
    d.approval_status = drop.approval_status := by
  unfold purchase_drop_item at h
  split_ifs at h with h1 h2 h3
  cases h
  exact ⟨rfl, by omega, rfl⟩

/-- Invariant of a serialized run of reservation attempts: remaining stock plus
the successful quantities is conserved, and remaining stock stays nonnegative. -/
theorem runReservations_invariant (live : Bool) (qs : List Int) (drop : Drop) :
    (runReservations drop live qs).1.quantity_remaining
        + ((runReservations drop live qs).2).sum = drop.quantity_remaining ∧
    (0 ≤ drop.quantity_remaining →
      0 ≤ (runReservations drop live qs).1.quantity_remaining) := by
  induction qs generalizing drop with
  | nil => simp [runReservations]
  | cons q qs ih =>
    unfold runReservations
    cases h : purchase_drop_item drop live q with
    | error e => simpa using ih drop
    | ok d =>
      obtain ⟨h1, h2, h3⟩ := purchase_drop_item_ok h
      obtain ⟨ih1, ih2⟩ := ih d
      refine ⟨?_, fun h0 => ih2 (by omega)⟩
      simp only [List.sum_cons]
      omega

/-- C1: for every drop with `quantity_remaining = N` and every set of
concurrent reservation attempts against it (serialized, since each attempt is
one atomic RPC transaction), the sum of the successful quantities never
exceeds `N`, the remaining quantity after all attempts settle equals `N` minus
that sum and never goes negative (no order is created against oversold
inventory), and any attempt exceeding remaining stock fails with
`insufficientInventory`. -/
theorem inventory_conservation (drop : Drop) (live : Bool) (qs : List Int)
    (h0 : 0 ≤ drop.quantity_remaining) :
    ((runReservations drop live qs).2).sum ≤ drop.quantity_remaining ∧
    (runReservations drop live qs).1.quantity_remaining
      = drop.quantity_remaining - ((runReservations drop live qs).2).sum ∧
    0 ≤ (runReservations drop live qs).1.quantity_remaining ∧
    (∀ d : Drop, ∀ q : Int, d.approval_status = .approved →
      d.quantity_remaining < q →
      purchase_drop_item d true q = .error .insufficientInventory) := by
  obtain ⟨h1, h2⟩ := runReservations_invariant live qs drop
  refine ⟨by omega, by omega, h2 h0, ?_⟩
  intro d q ha hq
  unfold purchase_drop_item
  rw [if_neg (by simp [ha]), if_neg (by simp), if_pos hq]

/-- Witness for C1 at the spec §8 scenario: one unit left, two attempts of one
unit each — exactly one succeeds and remaining settles at zero. -/
theorem inventory_conservation_witness :
    ((runReservations exDrop true [1, 1]).2).sum ≤ exDrop.quantity_remaining ∧
    (runReservations exDrop true [1, 1]).1.quantity_remaining
      = exDrop.quantity_remaining - ((runReservations exDrop true [1, 1]).2).sum ∧
    0 ≤ (runReservations exDrop true [1, 1]).1.quantity_remaining ∧
    (∀ d : Drop, ∀ q : Int, d.approval_status = .approved →
      d.quantity_remaining < q →
      purchase_drop_item d true q = .error .insufficientInventory) :=
  inventory_conservation exDrop true [1, 1] (by decide)

/-- C4: the Pricing Engine computes `unitPrice` as the per-item sum of base
price plus selected surcharges with a flat-price fallback for empty menus,
`subtotal = unitPrice × qty`, `bookingFee = fee × qty`, `deliveryFee` the flat
fee iff delivery is requested, `taxAmount = (subtotal + deliveryFee +
bookingFee) × taxRate` with the rate defaulting to 0, and `total` the sum of
the four components. -/
theorem pricing_engine_formulas (drop : Drop) (sel : Selections) (qty : Nat)
    (deliveryRequested : Bool) (bookingFeePerPackage : ℚ) :
    unitPrice drop sel
      = (if drop.menu_items = [] then drop.price
         else (drop.menu_items.map
            (fun item => item.basePrice + selectedSurcharges sel item)).sum) ∧
    (clientPricing drop sel qty deliveryRequested bookingFeePerPackage).subtotal
      = unitPrice drop sel * qty ∧
    (clientPricing drop sel qty deliveryRequested bookingFeePerPackage).bookingFee
      = bookingFeePerPackage * qty ∧
    (clientPricing drop sel qty deliveryRequested bookingFeePerPackage).deliveryFee
      = (if deliveryRequested then drop.delivery_fee else 0) ∧
    (clientPricing drop sel qty deliveryRequested bookingFeePerPackage).taxAmount
      = ((clientPricing drop sel qty deliveryRequested bookingFeePerPackage).subtotal
          + (clientPricing drop sel qty deliveryRequested bookingFeePerPackage).deliveryFee
          + (clientPricing drop sel qty deliveryRequested bookingFeePerPackage).bookingFee)
        * drop.tax_rate.getD 0 ∧
    (clientPricing drop sel qty deliveryRequested bookingFeePerPackage).orderTotal
      = (clientPricing drop sel qty deliveryRequested bookingFeePerPackage).subtotal
          + (clientPricing drop sel qty deliveryRequested bookingFeePerPackage).deliveryFee
          + (clientPricing drop sel qty deliveryRequested bookingFeePerPackage).bookingFee
          + (clientPricing drop sel qty deliveryRequested bookingFeePerPackage).taxAmount :=
  ⟨unitPrice_eq drop sel, rfl, rfl, rfl, rfl, rfl⟩

/-- C2 counterexample: for the approved flat-price drop `exDrop` (price 10, no
menu items, no tax, no delivery), quantity 1 and booking fee 1 per package,
the client Pricing Engine displays a total of 11 while `savePurchase` computes
and persists 10 — the two totals are not equal. -/
theorem client_server_total_mismatch :
    (clientPricing exDrop [] 1 false 1).orderTotal = 11 ∧
    savePurchaseTotal exDrop 1 false (finalSelections exDrop []) = 10 ∧
    savePurchase exDrop true 1 false (finalSelections exDrop [])
      = .ok (10, { exDrop with quantity_remaining := 0 }) ∧
    (11 : ℚ) ≠ 10 := by
  refine ⟨?_, ?_, ?_, by norm_num⟩
  · norm_num [clientPricing, unitPrice, exDrop]
  · norm_num [savePurchaseTotal, modifiersCost, finalSelections, exDrop]
  · have ht : savePurchaseTotal exDrop 1 false (finalSelections exDrop []) = 10 := by
      norm_num [savePurchaseTotal, modifiersCost, finalSelections, exDrop]
    simp only [savePurchase, purchase_drop_item, ht]
    norm_num [exDrop]

/-- C2 amended: `savePurchase` derives its own total — flat price × quantity,
plus the delivery fee when requested, plus modifier surcharges × quantity —
which omits the booking fee and the tax the client displays; for a drop with
no menu items the client-displayed total exceeds the persisted one by exactly
`bookingFee + taxAmount`. -/
theorem savePurchase_total_omits_booking_fee_and_tax (drop : Drop)
    (sel : Selections) (qty : Nat) (deliveryRequested : Bool)
    (bookingFeePerPackage : ℚ) (hmenu : drop.menu_items = []) :
    savePurchaseTotal drop qty deliveryRequested (finalSelections drop sel)
      = drop.price * qty + (if deliveryRequested then drop.delivery_fee else 0)
        + modifiersCost (finalSelections drop sel) * qty ∧
    (clientPricing drop sel qty deliveryRequested bookingFeePerPackage).orderTotal
      = savePurchaseTotal drop qty deliveryRequested (finalSelections drop sel)
        + (clientPricing drop sel qty deliveryRequested bookingFeePerPackage).bookingFee
        + (clientPricing drop sel qty deliveryRequested bookingFeePerPackage).taxAmount := by
  constructor
  · unfold savePurchaseTotal
    cases deliveryRequested <;> simp
  · have hfs : finalSelections drop sel = [] := by simp [finalSelections, hmenu]
    unfold clientPricing savePurchaseTotal unitPrice modifiersCost
    rw [hfs]
    simp only [hmenu]
    cases deliveryRequested <;> simp

/-- Witness for the amended C2 at the concrete drop `exDrop`. -/
theorem savePurchase_total_omits_booking_fee_and_tax_witness :
    savePurchaseTotal exDrop 1 false (finalSelections exDrop [])
      = exDrop.price * (1 : ℕ) + (if false then exDrop.delivery_fee else 0)
        + modifiersCost (finalSelections exDrop []) * (1 : ℕ) ∧
    (clientPricing exDrop [] 1 false 1).orderTotal
      = savePurchaseTotal exDrop 1 false (finalSelections exDrop [])
        + (clientPricing exDrop [] 1 false 1).bookingFee
        + (clientPricing exDrop [] 1 false 1).taxAmount :=
  savePurchase_total_omits_booking_fee_and_tax exDrop [] 1 false 1 rfl

/-- C3 counterexample: the checkout-session gateway, called for the failed
order `exRowFailed` (no session referenced yet), creates a new session and
persists `payment_status := pending` on the row — a `failed → pending`
transition, which is not among the transitions the claim allows. -/
theorem gateway_moves_failed_to_pending :
    exRowFailed.payment_status = .failed ∧
    (createCheckoutSessionRow exRowFailed exStripeEmpty).2.1.payment_status = .pending ∧
    ¬ specAllowedTransition .failed .pending := by
  refine ⟨rfl, ?_, by decide⟩
  have hr : round ((10 : ℚ) * 100) = 1000 := by
    norm_num [round_eq]
  simp [createCheckoutSessionRow, exRowFailed, exRow, exStripeEmpty, retrieveSession,
    createSession, hr]

/-- C3 amended: the code also performs `failed → pending` (gateway retry of a
failed payment) and, under replayed `completed` events, `failed → paid` and
`refunded → paid`; what does hold is that a paid order is never moved to
`pending` or `failed`: the gateway leaves paid orders untouched with an error,
and every webhook event maps a paid row to `paid` or `refunded`. -/
theorem paid_only_becomes_refunded :
    (∀ p : PurchaseRow, ∀ st : StripeState, p.payment_status = .paid →
      createCheckoutSessionRow p st = (.err 400 "Purchase is already paid.", p, st)) ∧
    (∀ now : Nat, ∀ ev : StripeEvent, ∀ db : List PurchaseRow, ∀ i : Nat,
      ∀ h1 : i < db.length, ∀ h2 : i < (handleEvent now ev db).length,
      (db.get ⟨i, h1⟩).payment_status = .paid →
      ((handleEvent now ev db).get ⟨i, h2⟩).payment_status = .paid ∨
      ((handleEvent now ev db).get ⟨i, h2⟩).payment_status = .refunded) := by
  constructor
  · intro p st hp
    unfold createCheckoutSessionRow
    rw [if_pos hp]
  · intro now ev db i h1 h2 hp
    simp only [List.get_eq_getElem] at hp ⊢
    cases ev with
    | checkoutSessionCompleted pid sid intent =>
      cases pid with
      | none => exact .inl (by simpa [handleEvent] using hp)
      | some pid =>
        simp only [handleEvent, updateWhere, List.getElem_map]
        split_ifs <;> simp [hp]
    | checkoutSessionAsyncPaymentFailed pid sid =>
      cases pid with
      | none => exact .inl (by simpa [handleEvent] using hp)
      | some pid =>
        simp only [handleEvent, updateWhere, List.getElem_map]
        split_ifs with hhit
        · rw [hp] at hhit
          simp at hhit
        · exact .inl hp
    | checkoutSessionExpired pid sid =>
      cases pid with
      | none => exact .inl (by simpa [handleEvent] using hp)
      | some pid =>
        simp only [handleEvent, updateWhere, List.getElem_map]
        split_ifs with hhit
        · rw [hp] at hhit
          simp at hhit
        · exact .inl hp
    | chargeRefunded intent =>
      cases intent with
      | none => exact .inl (by simpa [handleEvent] using hp)
      | some intentId =>
        simp only [handleEvent, updateWhere, List.getElem_map]
        split_ifs <;> simp [hp]
    | otherEvent => exact .inl (by simpa [handleEvent] using hp)

/-- Witness for the amended C3: the gateway refuses the paid row `exRowPaid`
unchanged, and a replayed `completed` event leaves it paid. -/
theorem paid_only_becomes_refunded_witness :
    createCheckoutSessionRow exRowPaid exStripeEmpty
      = (.err 400 "Purchase is already paid.", exRowPaid, exStripeEmpty) ∧
    (((handleEvent 1 exEvCompleted [exRowPaid]).get ⟨0, by decide⟩).payment_status = .paid ∨
      ((handleEvent 1 exEvCompleted [exRowPaid]).get ⟨0, by decide⟩).payment_status = .refunded) :=
  ⟨paid_only_becomes_refunded.1 exRowPaid exStripeEmpty rfl,
   paid_only_becomes_refunded.2 1 exEvCompleted [exRowPaid] 0 (by decide) (by decide) (by decide)⟩

/-- C5 counterexample: delivering `checkout.session.completed` for the pending
order `exRow` at time 1 and again (duplicate) at time 2 returns 200 both times
and leaves the order paid, but the second delivery overwrites `paid_at`: it
ends at `some 2`, not at the value `some 1` set by the first delivery. -/
theorem duplicate_completed_overwrites_paid_at :
    (stripeWebhook 1 (validRequest exEvCompleted) exDb).1 = 200 ∧
    (stripeWebhook 2 (validRequest exEvCompleted)
      (stripeWebhook 1 (validRequest exEvCompleted) exDb).2).1 = 200 ∧
    ((stripeWebhook 1 (validRequest exEvCompleted) exDb).2.map
      (fun r => r.paid_at)) = [some 1] ∧
    ((deliverTwice 1 2 exEvCompleted exDb).map (fun r => r.paid_at)) = [some 2] ∧
    ((deliverTwice 1 2 exEvCompleted exDb).map (fun r => r.payment_status))
      = [.paid] ∧
    (some 2 : Option Nat) ≠ some 1 := by
  refine ⟨rfl, rfl, ?_, ?_, ?_, by decide⟩ <;>
    simp [deliverTwice, stripeWebhook, validRequest, handleEvent, updateWhere,
      exDb, exRow, exEvCompleted]

/-- C5 amended: a duplicate `completed` delivery is accepted (HTTP 200) and the
order is still paid afterwards, but the transition is re-applied rather than
skipped: `paid_at` is overwritten with the second delivery's timestamp. -/
theorem duplicate_completed_is_accepted_but_retimestamps
    (t1 t2 : Nat) (db : List PurchaseRow) (pid sid : String)
    (intent : Option String) (i : Nat) (h1 : i < db.length)
    (h2 : i < (deliverTwice t1 t2 (.checkoutSessionCompleted (some pid) sid intent) db).length)
    (hid : (db.get ⟨i, h1⟩).id = pid) :
    (stripeWebhook t1 (validRequest (.checkoutSessionCompleted (some pid) sid intent)) db).1
      = 200 ∧
    (stripeWebhook t2 (validRequest (.checkoutSessionCompleted (some pid) sid intent))
      (stripeWebhook t1 (validRequest (.checkoutSessionCompleted (some pid) sid intent)) db).2).1
      = 200 ∧
    ((deliverTwice t1 t2 (.checkoutSessionCompleted (some pid) sid intent) db).get
      ⟨i, h2⟩).payment_status = .paid ∧
    ((deliverTwice t1 t2 (.checkoutSessionCompleted (some pid) sid intent) db).get
      ⟨i, h2⟩).paid_at = some t2 := by
  refine ⟨rfl, rfl, ?_, ?_⟩ <;>
  · simp only [List.get_eq_getElem] at hid ⊢
    simp [deliverTwice, stripeWebhook, validRequest, handleEvent, updateWhere,
      List.getElem_map, hid]

/-- Witness for the amended C5 at the one-row table `exDb`. -/
theorem duplicate_completed_is_accepted_but_retimestamps_witness :
    (stripeWebhook 1 (validRequest (.checkoutSessionCompleted (some "p1") "cs_1" (some "pi_1"))) exDb).1
      = 200 ∧
    (stripeWebhook 2 (validRequest (.checkoutSessionCompleted (some "p1") "cs_1" (some "pi_1")))
      (stripeWebhook 1 (validRequest (.checkoutSessionCompleted (some "p1") "cs_1" (some "pi_1"))) exDb).2).1
      = 200 ∧
    ((deliverTwice 1 2 (.checkoutSessionCompleted (some "p1") "cs_1" (some "pi_1")) exDb).get
      ⟨0, by decide⟩).payment_status = .paid ∧
    ((deliverTwice 1 2 (.checkoutSessionCompleted (some "p1") "cs_1" (some "pi_1")) exDb).get
      ⟨0, by decide⟩).paid_at = some 2 :=
  duplicate_completed_is_accepted_but_retimestamps 1 2 exDb "p1" "cs_1" (some "pi_1") 0
    (by decide) (by decide) (by decide)

/-- C6: a webhook request with a missing or invalid signature is rejected with
a non-2xx status and causes no change to any order's persisted state. -/
theorem webhook_rejects_bad_signature_without_mutation
    (now : Nat) (req : WebhookRequest) (db : List PurchaseRow)
    (h : req.hasSignature = false ∨ req.signatureValid = false) :
    (stripeWebhook now req db).1 ≠ 200 ∧ (stripeWebhook now req db).2 = db := by
  unfold stripeWebhook
  split_ifs with hm hs hv
  · exact ⟨by simp, rfl⟩
  · exact ⟨by simp, rfl⟩
  · exact ⟨by simp, rfl⟩
  · rcases h with h | h
    · exact absurd h hs
    · exact absurd h hv

/-- Witness for C6 at a request whose signature verification fails. -/
theorem webhook_rejects_bad_signature_without_mutation_witness :
    (stripeWebhook 1 exReqBadSig exDb).1 ≠ 200 ∧
    (stripeWebhook 1 exReqBadSig exDb).2 = exDb :=
  webhook_rejects_bad_signature_without_mutation 1 exReqBadSig exDb (Or.inr rfl)

/-- A `find?` over a list containing an element satisfying the predicate finds
something. -/
theorem find?_isSome_of_mem {α : Type} {l : List α} {p : α → Bool} {x : α}
    (hx : x ∈ l) (h : p x = true) : (l.find? p).isSome := by
  induction l with
  | nil => cases hx
  | cons hd tl ih =>
    by_cases hp : p hd = true
    · simp [List.find?_cons_of_pos, hp]
    · cases hx with
      | head => exact absurd h hp
      | tail _ hmem => simpa [List.find?_cons_of_neg, hp] using ih hmem

/-- A `findSome?` over a list containing an element on which `f` fires finds
something. -/
theorem findSome?_isSome_of_mem {α β : Type} {l : List α} {f : α → Option β} {x : α}
    (hx : x ∈ l) (h : (f x).isSome) : (l.findSome? f).isSome := by
  induction l with
  | nil => cases hx
  | cons hd tl ih =>
    cases hy : f hd with
    | none =>
      cases hx with
      | head => rw [hy] at h; cases h
      | tail _ hmem => simpa [List.findSome?_cons, hy] using ih hmem
    | some y => simp [List.findSome?_cons, hy]

/-- A violated required group makes `firstViolation` fire. -/
theorem firstViolation_isSome {drop : Drop} {sel : Selections} {item : MenuItem}
    {g : ModifierGroup} (hitem : item ∈ drop.menu_items)
    (hg : g ∈ item.modifierGroups) (hmin : 0 < g.minSelect)
    (hcount : (lookupGroup sel item.id g.id).length < g.minSelect) :
    (firstViolation drop sel).isSome := by
  unfold firstViolation
  apply findSome?_isSome_of_mem hitem
  rw [Option.isSome_map']
  exact find?_isSome_of_mem hg (by simp [hmin, hcount])

/-- C7: an order attempt in which some modifier group with `minSelect > 0` has
fewer than `minSelect` selected options is rejected with the alert naming the
offending item and group, before any pricing or reservation occurs: the
attempt never reaches `savePurchase`/the RPC and the drop — in particular its
`quantity_remaining` — is unchanged. -/
theorem modifier_gate_rejects_before_reservation
    (drop : Drop) (live : Bool) (sel : Selections) (qty : Nat)
    (deliveryRequested : Bool) (item : MenuItem) (g : ModifierGroup)
    (hitem : item ∈ drop.menu_items) (hg : g ∈ item.modifierGroups)
    (hmin : 0 < g.minSelect)
    (hcount : (lookupGroup sel item.id g.id).length < g.minSelect) :
    (∃ item2 g2, firstViolation drop sel = some (item2, g2) ∧
      0 < g2.minSelect ∧
      (lookupGroup sel item2.id g2.id).length < g2.minSelect ∧
      (purchaseAttempt drop live sel qty deliveryRequested).1
        = .rejected (.incompleteSelection (incompleteSelectionMessage item2 g2))) ∧
    (purchaseAttempt drop live sel qty deliveryRequested).2 = drop := by
  obtain ⟨y, hy⟩ := Option.isSome_iff_exists.mp
    (firstViolation_isSome hitem hg hmin hcount)
  have hy2 := hy
  unfold firstViolation at hy2
  obtain ⟨a, ha, hfa⟩ := List.exists_of_findSome?_eq_some hy2
  obtain ⟨g2, hg2, hpair⟩ := Option.map_eq_some'.mp hfa
  have hpred := List.find?_some hg2
  rw [Bool.and_eq_true, decide_eq_true_eq, decide_eq_true_eq] at hpred
  subst hpair
  refine ⟨⟨a, g2, hy, hpred.1, hpred.2, ?_⟩, ?_⟩ <;>
    simp [purchaseAttempt, handlePurchaseClick, hy]

/-- Witness for C7: the required group `exGroupReq` (`minSelect = 2`) with only
one selected option rejects the attempt and leaves the drop unchanged. -/
theorem modifier_gate_rejects_before_reservation_witness :
    (∃ item2 g2, firstViolation exDropReq exSelOne = some (item2, g2) ∧
      0 < g2.minSelect ∧
      (lookupGroup exSelOne item2.id g2.id).length < g2.minSelect ∧
      (purchaseAttempt exDropReq true exSelOne 1 false).1
        = .rejected (.incompleteSelection (incompleteSelectionMessage item2 g2))) ∧
    (purchaseAttempt exDropReq true exSelOne 1 false).2 = exDropReq :=
  modifier_gate_rejects_before_reservation exDropReq true exSelOne 1 false
    exItemReq exGroupReq (by decide) (by decide) (by decide) (by decide)

/-- C8 counterexample: a selections state with two options picked in the
single-select group `exGroupMax` (`maxSelect = 1`) passes `validateSelections`
and the purchase click proceeds — the `maxSelect` bound is not enforced again
at submission time. -/
theorem validateSelections_ignores_maxSelect :
    exGroupMax.maxSelect = 1 ∧
    (lookupGroup exSelOver "i1" "g1").length = 2 ∧
    validateSelections exDropMax exSelOver = true ∧
    handlePurchaseClick exDropMax exSelOver 1 = .proceed := by
  refine ⟨rfl, by decide, by decide, by decide⟩

/-- C8 amended: the `maxSelect` cap is enforced at selection time only:
`toggleOption` never lets a group's selection count exceed the cap (removals
shrink it, single-select groups replace the previous pick, and a pick beyond
the cap is refused); submission-time `validateSelections` checks `minSelect`
only. -/
theorem toggleOption_enforces_maxSelect (groupSels : List ModifierOption)
    (option : ModifierOption) (maxSelect : Nat)
    (h : groupSels.length ≤ maxSelect) :
    (toggleGroup groupSels option maxSelect).length ≤ maxSelect ∧
    ((groupSels.find? (fun o => o.id == option.id)).isSome = false →
      maxSelect = 1 → toggleGroup groupSels option maxSelect = [option]) := by
  constructor
  · unfold toggleGroup
    split_ifs with h1 h2 h3
    · exact le_trans (List.length_filter_le _ _) h
    · simp only [List.length_cons, List.length_nil]
      simp at h2
      omega
    · simp only [List.length_append, List.length_cons, List.length_nil]
      omega
    · exact h
  · intro hfind hmax
    unfold toggleGroup
    rw [if_neg (by simp [hfind]), if_pos (by simp [hmax])]

/-- Witness for the amended C8: clicking a second option in a full
single-select group replaces the previous pick and stays within the cap. -/
theorem toggleOption_enforces_maxSelect_witness :
    (toggleGroup [exOpt1] exOpt2 1).length ≤ 1 ∧
    ((([exOpt1] : List ModifierOption).find? (fun o => o.id == exOpt2.id)).isSome = false →
      (1 : Nat) = 1 → toggleGroup [exOpt1] exOpt2 1 = [exOpt2]) :=
  toggleOption_enforces_maxSelect [exOpt1] exOpt2 1 (by decide)

/-- Shared unfolding of the gateway's reuse branch: an order that is neither
paid nor refunded and references a still-open session carrying a URL gets that
URL back with `reused := true`, with the purchase row and the provider state
untouched. -/
theorem createCheckoutSessionRow_reuse (p : PurchaseRow) (st : StripeState)
    (sid u : String) (s : StripeSession)
    (hp1 : p.payment_status ≠ .paid) (hp2 : p.payment_status ≠ .refunded)
    (hsid : p.stripe_checkout_session_id = some sid)
    (hfind : retrieveSession st sid = some s)
    (hstat : s.status = .opened) (hurl : s.url = some u) :
    createCheckoutSessionRow p st = (.ok u s.id true, p, st) := by
  simp [createCheckoutSessionRow, hp1, hp2, hsid, hfind, hstat, hurl]

/-- C9: calling the gateway twice for a pending order whose referenced session
is still open returns the same session URL both times with `reused := true`,
and the second call creates no new provider session (the provider state after
it is the original one). -/
theorem session_reuse_idempotent (p : PurchaseRow) (st : StripeState)
    (sid u : String) (s : StripeSession)
    (hp : p.payment_status = .pending)
    (hsid : p.stripe_checkout_session_id = some sid)
    (hfind : retrieveSession st sid = some s)
    (hstat : s.status = .opened) (hurl : s.url = some u) :
    createCheckoutSessionRow p st = (.ok u s.id true, p, st) ∧
    createCheckoutSessionRow (createCheckoutSessionRow p st).2.1
      (createCheckoutSessionRow p st).2.2 = (.ok u s.id true, p, st) := by
  have h1 := createCheckoutSessionRow_reuse p st sid u s
    (by simp [hp]) (by simp [hp]) hsid hfind hstat hurl
  refine ⟨h1, ?_⟩
  rw [h1]
  exact h1

/-- Witness for C9 at the pending row `exRowWithSession` and the open session
`exSessionOpen`. -/
theorem session_reuse_idempotent_witness :
    createCheckoutSessionRow exRowWithSession exStripeOpen
      = (.ok "https://checkout.stripe.test/cs_1" exSessionOpen.id true,
          exRowWithSession, exStripeOpen) ∧
    createCheckoutSessionRow (createCheckoutSessionRow exRowWithSession exStripeOpen).2.1
      (createCheckoutSessionRow exRowWithSession exStripeOpen).2.2
      = (.ok "https://checkout.stripe.test/cs_1" exSessionOpen.id true,
          exRowWithSession, exStripeOpen) :=
  session_reuse_idempotent exRowWithSession exStripeOpen "cs_1"
    "https://checkout.stripe.test/cs_1" exSessionOpen rfl rfl (by decide) rfl rfl

/-- C10: when the gateway is called for an order that references a still-open
session, it answers from the reuse branch without any database write: the
purchase row after the call is the fetched one, every field unchanged, and the
provider state is untouched. -/
theorem reuse_branch_writes_nothing (p : PurchaseRow) (st : StripeState)
    (sid u : String) (s : StripeSession)
    (hp1 : p.payment_status ≠ .paid) (hp2 : p.payment_status ≠ .refunded)
    (hsid : p.stripe_checkout_session_id = some sid)
    (hfind : retrieveSession st sid = some s)
    (hstat : s.status = .opened) (hurl : s.url = some u) :
    (createCheckoutSessionRow p st).2.1 = p ∧
    (createCheckoutSessionRow p st).2.2 = st ∧
    (createCheckoutSessionRow p st).1 = .ok u s.id true := by
  rw [createCheckoutSessionRow_reuse p st sid u s hp1 hp2 hsid hfind hstat hurl]
  exact ⟨rfl, rfl, rfl⟩

/-- Witness for C10 at the pending row `exRowWithSession`. -/
theorem reuse_branch_writes_nothing_witness :
    (createCheckoutSessionRow exRowWithSession exStripeOpen).2.1 = exRowWithSession ∧
    (createCheckoutSessionRow exRowWithSession exStripeOpen).2.2 = exStripeOpen ∧
    (createCheckoutSessionRow exRowWithSession exStripeOpen).1
      = .ok "https://checkout.stripe.test/cs_1" exSessionOpen.id true :=
  reuse_branch_writes_nothing exRowWithSession exStripeOpen "cs_1"
    "https://checkout.stripe.test/cs_1" exSessionOpen (by decide) (by decide)
    rfl (by decide) rfl rfl

end FoodieDrops
